import Mathlib

/-!
Verification development for `src/common/http_defs.cc` of the pistache HTTP
library: the HTTP-date recognizer cascade (`FullDate::fromString`), date
formatting (`FullDate::write`), `CacheDirective`, and the enumeration display
tables.

Machine integers are modelled as `Int`/`Nat` with explicit reductions modulo
`2 ^ 64` where the C++ code converts between `uint64_t` and the `int64_t`
representation of `std::chrono::seconds`.  A `std::chrono::system_clock`
time point is modelled by its signed count of whole seconds since the Unix
epoch.  Thrown C++ exceptions are modelled by the explicit `Exn` type.
-/

namespace Pistache.Http

/-- A `system_clock` time point at second resolution: signed seconds since
1970-01-01 00:00:00 UTC. -/
abbrev TimePoint := Int

/-- `FullDate` owns exactly one time point (field `date_` in the C++ class). -/
structure FullDate where
  date_ : TimePoint
deriving DecidableEq, Repr

/-- A C++ exception escaping a function, identified by its dynamic type and
its `what()` message. -/
inductive Exn where
  | runtimeError (msg : String)
  | invalidArgument (msg : String)
  | outOfRange (msg : String)
  | domainError (msg : String)
deriving DecidableEq, Repr

/-! ## Proleptic-Gregorian calendar arithmetic

These are the `days_from_civil` / `civil_from_days` / weekday algorithms of the
vendored date library (`date::year_month_day` ↔ `date::sys_days`), which also
agree with glibc `gmtime_r` on every representable instant. -/

/-- Gregorian leap-year test. -/
def isLeap (y : Int) : Bool := y % 4 = 0 && (y % 100 ≠ 0 || y % 400 = 0)

/-- Number of days in month `m` (1..12) of year `y`. -/
def daysInMonth (y : Int) (m : Nat) : Nat :=
  if m = 2 then (if isLeap y then 29 else 28)
  else if m = 4 ∨ m = 6 ∨ m = 9 ∨ m = 11 then 30
  else 31

/-- Days since 1970-01-01 of the civil date `y-m-d` (proleptic Gregorian). -/
def daysFromCivil (y : Int) (m d : Nat) : Int :=
  let yAdj : Int := if m ≤ 2 then y - 1 else y
  let era : Int := yAdj / 400
  let yoe : Int := yAdj - era * 400
  let mp : Int := if 2 < m then (m : Int) - 3 else (m : Int) + 9
  let doy : Int := (153 * mp + 2) / 5 + (d : Int) - 1
  let doe : Int := yoe * 365 + yoe / 4 - yoe / 100 + doy
  era * 146097 + doe - 719468

/-- Civil date `(y, m, d)` of the day `z` days after 1970-01-01. -/
def civilFromDays (z : Int) : Int × Nat × Nat :=
  let w : Int := z + 719468
  let era : Int := w / 146097
  let doe : Int := w - era * 146097
  let yoe : Int := (doe - doe / 1460 + doe / 36524 - doe / 146096) / 365
  let y : Int := yoe + era * 400
  let doy : Int := doe - (365 * yoe + yoe / 4 - yoe / 100)
  let mp : Int := (5 * doy + 2) / 153
  let d : Int := doy - (153 * mp + 2) / 5 + 1
  let m : Int := if mp < 10 then mp + 3 else mp - 9
  (if m ≤ 2 then y + 1 else y, m.toNat, d.toNat)

/-- Weekday (0 = Sunday .. 6 = Saturday) of the day `z` days after
1970-01-01 (which was a Thursday). -/
def weekdayFromDays (z : Int) : Nat := ((z + 4) % 7).toNat

/-! ## Model of `date::parse` field readers

`date::from_stream` consumes the stream field by field; a whitespace
character in the format string skips zero or more whitespace characters of
the input, any other literal character must match exactly, and trailing input
after the last field is left unread.  `%a`/`%A` accept a full or abbreviated
weekday name, `%b` a full or abbreviated month name (longest match; the
canonical English names of the library's default locale are modelled),
`%d`/`%H`/`%M`/`%S`/`%y` read one or two decimal digits, `%Y` up to four,
`%Z` a non-empty run of non-whitespace characters whose value is discarded.
On success the parsed fields are checked for consistency: the day must exist
in the parsed month and year, the time-of-day fields must be in range, and a
parsed weekday must equal the weekday computed from the parsed date. -/

/-- Keyword scan: the first table entry whose name is a prefix of the input
wins (full names are listed before abbreviated ones, giving longest match). -/
def readKeyword (table : List (String × Nat)) (cs : List Char) :
    Option (Nat × List Char) :=
  match table with
  | [] => none
  | (name, v) :: rest =>
      if name.data.isPrefixOf cs then some (v, cs.drop name.data.length)
      else readKeyword rest cs

/-- Weekday names recognised by `%a`/`%A`, full names first. -/
def weekdayTable : List (String × Nat) :=
  [("Sunday", 0), ("Monday", 1), ("Tuesday", 2), ("Wednesday", 3),
   ("Thursday", 4), ("Friday", 5), ("Saturday", 6),
   ("Sun", 0), ("Mon", 1), ("Tue", 2), ("Wed", 3), ("Thu", 4), ("Fri", 5),
   ("Sat", 6)]

/-- Month names recognised by `%b`, full names first; values 1..12. -/
def monthTable : List (String × Nat) :=
  [("January", 1), ("February", 2), ("March", 3), ("April", 4), ("May", 5),
   ("June", 6), ("July", 7), ("August", 8), ("September", 9), ("October", 10),
   ("November", 11), ("December", 12),
   ("Jan", 1), ("Feb", 2), ("Mar", 3), ("Apr", 4), ("Jun", 6), ("Jul", 7),
   ("Aug", 8), ("Sep", 9), ("Oct", 10), ("Nov", 11), ("Dec", 12)]

/-- Take at most `w` leading decimal digits. -/
def takeDigits : Nat → List Char → List Char × List Char
  | 0, cs => ([], cs)
  | _ + 1, [] => ([], [])
  | w + 1, c :: cs =>
      if c.isDigit then
        let r := takeDigits w cs
        (c :: r.1, r.2)
      else ([], c :: cs)

/-- Value of a string of decimal digits, most significant first. -/
def digitsVal (ds : List Char) : Nat :=
  ds.foldl (fun a c => a * 10 + (c.toNat - 48)) 0

/-- Read an unsigned decimal field of width `w`: one to `w` digits. -/
def readNum (w : Nat) (cs : List Char) : Option (Nat × List Char) :=
  let r := takeDigits w cs
  if r.1.isEmpty then none else some (digitsVal r.1, r.2)

/-- A whitespace character in the format: skip zero or more. -/
def skipWs (cs : List Char) : List Char := cs.dropWhile Char.isWhitespace

/-- A literal character in the format must match exactly. -/
def expectChar (c : Char) (cs : List Char) : Option (List Char) :=
  match cs with
  | [] => none
  | d :: rest => if d = c then some rest else none

/-- The `%Z` field: a non-empty run of non-whitespace characters, discarded
(no offset is applied when parsing into a `sys_time`). -/
def readZone (cs : List Char) : Option (List Char) :=
  if (cs.takeWhile (fun c => !c.isWhitespace)).isEmpty then none
  else some (cs.dropWhile (fun c => !c.isWhitespace))

/-- The `%T` field: `%H:%M:%S`, each two digits, range-checked. -/
def readTime (cs : List Char) : Option ((Nat × Nat × Nat) × List Char) :=
  match readNum 2 cs with
  | none => none
  | some (h, cs) =>
  match expectChar ':' cs with
  | none => none
  | some cs =>
  match readNum 2 cs with
  | none => none
  | some (mi, cs) =>
  match expectChar ':' cs with
  | none => none
  | some cs =>
  match readNum 2 cs with
  | none => none
  | some (se, cs) =>
      if h < 24 ∧ mi < 60 ∧ se < 60 then some ((h, mi, se), cs) else none

/-- Final consistency check of `date::from_stream` and conversion of the
collected fields to a `sys_time`: the civil date must be valid and agree with
the parsed weekday. -/
def mkTimePoint (wd day mon : Nat) (year : Int) (h mi se : Nat) :
    Option TimePoint :=
  if 1 ≤ day ∧ day ≤ daysInMonth year mon ∧
     weekdayFromDays (daysFromCivil year mon day) = wd then
    some (daysFromCivil year mon day * 86400 + (h * 3600 + mi * 60 + se : Nat))
  else none

/-! ## The four date recognizers (anonymous namespace of http_defs.cc) -/

/-- First attempt of `parse_RFC_1123`:
`date::parse("%a, %d %b %Y %T %Z", tp)`. -/
def parse_RFC_1123_strict (s : String) : Option TimePoint :=
  match readKeyword weekdayTable s.data with
  | none => none
  | some (wd, cs) =>
  match expectChar ',' cs with
  | none => none
  | some cs =>
  match readNum 2 (skipWs cs) with
  | none => none
  | some (day, cs) =>
  match readKeyword monthTable (skipWs cs) with
  | none => none
  | some (mon, cs) =>
  match readNum 4 (skipWs cs) with
  | none => none
  | some (year, cs) =>
  match readTime (skipWs cs) with
  | none => none
  | some (hms, cs) =>
  match readZone (skipWs cs) with
  | none => none
  | some _ => mkTimePoint wd day mon (year : Int) hms.1 hms.2.1 hms.2.2

/-- Second attempt of `parse_RFC_1123`, the dash-separated variant seen from
some producers (comment in the source cites
`expires=Mon, 26-May-2025 18:38:48 GMT` from www.google.com):
`date::parse("%a, %d-%b-%Y %T %Z", tp)`. -/
def parse_RFC_1123_dash (s : String) : Option TimePoint :=
  match readKeyword weekdayTable s.data with
  | none => none
  | some (wd, cs) =>
  match expectChar ',' cs with
  | none => none
  | some cs =>
  match readNum 2 (skipWs cs) with
  | none => none
  | some (day, cs) =>
  match expectChar '-' cs with
  | none => none
  | some cs =>
  match readKeyword monthTable cs with
  | none => none
  | some (mon, cs) =>
  match expectChar '-' cs with
  | none => none
  | some cs =>
  match readNum 4 cs with
  | none => none
  | some (year, cs) =>
  match readTime (skipWs cs) with
  | none => none
  | some (hms, cs) =>
  match readZone (skipWs cs) with
  | none => none
  | some _ => mkTimePoint wd day mon (year : Int) hms.1 hms.2.1 hms.2.2

/-- `parse_RFC_1123`: the strict grammar, then on failure the dash-separated
variant. -/
def parse_RFC_1123 (s : String) : Option TimePoint :=
  match parse_RFC_1123_strict s with
  | some tp => some tp
  | none => parse_RFC_1123_dash s

/-- Two-digit year pivot of `%y`: 00..68 map to 2000..2068, 69..99 to
1969..1999. -/
def pivotYear (yy : Nat) : Int :=
  if yy ≤ 68 then (2000 + yy : Nat) else (1900 + yy : Nat)

/-- `parse_RFC_850`: `date::parse("%A, %d-%b-%y %T %Z", tp)` (on input `%A`
accepts the same full or abbreviated weekday names as `%a`). -/
def parse_RFC_850 (s : String) : Option TimePoint :=
  match readKeyword weekdayTable s.data with
  | none => none
  | some (wd, cs) =>
  match expectChar ',' cs with
  | none => none
  | some cs =>
  match readNum 2 (skipWs cs) with
  | none => none
  | some (day, cs) =>
  match expectChar '-' cs with
  | none => none
  | some cs =>
  match readKeyword monthTable cs with
  | none => none
  | some (mon, cs) =>
  match expectChar '-' cs with
  | none => none
  | some cs =>
  match readNum 2 cs with
  | none => none
  | some (yy, cs) =>
  match readTime (skipWs cs) with
  | none => none
  | some (hms, cs) =>
  match readZone (skipWs cs) with
  | none => none
  | some _ => mkTimePoint wd day mon (pivotYear yy) hms.1 hms.2.1 hms.2.2

/-- `parse_asctime`: `date::parse("%a %b %d %T %Y", tp)` (no timezone field;
the instant is taken as UTC). -/
def parse_asctime (s : String) : Option TimePoint :=
  match readKeyword weekdayTable s.data with
  | none => none
  | some (wd, cs) =>
  match readKeyword monthTable (skipWs cs) with
  | none => none
  | some (mon, cs) =>
  match readNum 2 (skipWs cs) with
  | none => none
  | some (day, cs) =>
  match readTime (skipWs cs) with
  | none => none
  | some (hms, cs) =>
  match readNum 4 (skipWs cs) with
  | none => none
  | some (year, _) => mkTimePoint wd day mon (year : Int) hms.1 hms.2.1 hms.2.2

/-! ## The epoch recognizer -/

/-- Result of `std::stoull`. -/
inductive StoullResult where
  | ok (v : Nat)
  | invalidArgumentExn
  | outOfRangeExn
deriving DecidableEq, Repr

/-- Model of `std::stoull` on the strings `parse_epoch` can pass it (runs of
decimal digits, possibly empty): no leading digit means no conversion, which
throws `std::invalid_argument`; a converted value above `2 ^ 64 - 1` throws
`std::out_of_range`. -/
def stoull (s : String) : StoullResult :=
  let ds := s.data.takeWhile Char.isDigit
  if ds.isEmpty then .invalidArgumentExn
  else if digitsVal ds < 2 ^ 64 then .ok (digitsVal ds)
  else .outOfRangeExn

/-- Reinterpretation of a `uint64_t` value as the `int64_t` representation of
`std::chrono::seconds` (two's complement). -/
def toInt64 (v : Nat) : Int :=
  if v < 2 ^ 63 then (v : Int) else (v : Int) - 2 ^ 64

/-- Outcome of `parse_epoch`: `true` with a time point, `false`, or an
exception escaping it (only `std::out_of_range` is caught). -/
inductive EpochResult where
  | success (tp : TimePoint)
  | failure
  | uncaught (e : Exn)
deriving DecidableEq, Repr

/-- `parse_epoch`: every character must satisfy `isdigit`, then
`tp = time_point(std::chrono::seconds(std::stoull(s)))` with only
`std::out_of_range` caught (and turned into failure).  `std::stoull` of the
empty string throws `std::invalid_argument`, which no handler catches. -/
def parse_epoch (s : String) : EpochResult :=
  if s.data.all Char.isDigit then
    match stoull s with
    | .ok v => .success (toInt64 v)
    | .outOfRangeExn => .failure
    | .invalidArgumentExn => .uncaught (.invalidArgument "stoull")
  else .failure

/-! ## FullDate::fromString -/

/-- `FullDate::fromString`: run the four recognizers in order, return the
first success; when all fail, log `Failed parsing date: <str>` at debug
severity and throw `std::runtime_error("Invalid Date format")`.  The result
pairs the normal-or-exceptional outcome with the emitted log lines. -/
def FullDate.fromString (s : String) : Except Exn FullDate × List String :=
  match parse_RFC_1123 s with
  | some tp => (.ok ⟨tp⟩, [])
  | none =>
  match parse_RFC_850 s with
  | some tp => (.ok ⟨tp⟩, [])
  | none =>
  match parse_asctime s with
  | some tp => (.ok ⟨tp⟩, [])
  | none =>
  match parse_epoch s with
  | .success tp => (.ok ⟨tp⟩, [])
  | .failure =>
      (.error (.runtimeError "Invalid Date format"),
       ["Failed parsing date: " ++ s])
  | .uncaught e => (.error e, [])

/-! ## FullDate::write

`FullDate::write` renders the owned time point into an output stream.  The
model returns the text written to the stream together with the exception
thrown, if any.  The host's local-timezone configuration is modelled as an
explicit `TzEnv` argument: none of the implemented branches consults it
(`date::to_stream` on a `sys_time` always prints the fixed abbreviation
`UTC` for `%Z`, and the `RFC1123GMT` branch converts with `gmtime_r`, a pure
UTC conversion), so it is threaded through unused. -/

/-- Host timezone configuration (the `TZ` environment / tzdata state). -/
structure TzEnv where
  localZoneName : String
deriving DecidableEq, Repr

/-- Two-digit zero-padded decimal field. -/
def pad2 (n : Nat) : String := if n < 10 then "0" ++ toString n else toString n

/-- Abbreviated weekday name for `%a` output (0 = Sunday). -/
def weekdayAbbrev (wd : Nat) : String :=
  (["Sun", "Mon", "Tue", "Wed", "Thu", "Fri", "Sat"]).getD wd "Sun"

/-- Abbreviated month name for `%b` output (1 = January). -/
def monthAbbrev (m : Nat) : String :=
  (["Jan", "Feb", "Mar", "Apr", "May", "Jun", "Jul", "Aug", "Sep", "Oct",
    "Nov", "Dec"]).getD (m - 1) "Jan"

/-- Days-since-epoch component of a time point (floor division). -/
def tpDays (t : TimePoint) : Int := t / 86400

/-- Seconds-of-day component of a time point (always in `[0, 86400)`). -/
def tpSecs (t : TimePoint) : Nat := (t % 86400).toNat

/-- The `"%a, %d %b %Y %T "` prefix shared by the two RFC-1123 output
layouts, computed from the UTC calendar fields of the time point. -/
def rfc1123Body (t : TimePoint) : String :=
  let c := civilFromDays (tpDays t)
  let s := tpSecs t
  weekdayAbbrev (weekdayFromDays (tpDays t)) ++ ", " ++ pad2 c.2.2 ++ " " ++
    monthAbbrev c.2.1 ++ " " ++ toString c.1 ++ " " ++ pad2 (s / 3600) ++
    ":" ++ pad2 (s / 60 % 60) ++ ":" ++ pad2 (s % 60) ++ " "

/-- `date::to_stream(os, "%a, %d %b %Y %T %Z", date_)`: on a `sys_time` the
`%Z` field is the fixed abbreviation `UTC`. -/
def formatRFC1123 (t : TimePoint) : String := rfc1123Body t ++ "UTC"

/-- The `RFC1123GMT` branch: `gmtime_r` then
`std::put_time(&gmtm, "%a, %d %b %Y %T GMT")` — the zone token is the
literal `GMT` in the format string. -/
def formatRFC1123GMT (t : TimePoint) : String := rfc1123Body t ++ "GMT"

/-- `date::to_stream(os, "%a, %d-%b-%y %T %Z", date_)` (RFC 850 output):
two-digit year, dashes, fixed `UTC` zone. -/
def formatRFC850 (t : TimePoint) : String :=
  let c := civilFromDays (tpDays t)
  let s := tpSecs t
  weekdayAbbrev (weekdayFromDays (tpDays t)) ++ ", " ++ pad2 c.2.2 ++ "-" ++
    monthAbbrev c.2.1 ++ "-" ++ pad2 (c.1 % 100).toNat ++ " " ++
    pad2 (s / 3600) ++ ":" ++ pad2 (s / 60 % 60) ++ ":" ++ pad2 (s % 60) ++
    " UTC"

/-- `date::to_stream(os, "%a %b %d %T %Y", date_)` (asctime output). -/
def formatAscTime (t : TimePoint) : String :=
  let c := civilFromDays (tpDays t)
  let s := tpSecs t
  weekdayAbbrev (weekdayFromDays (tpDays t)) ++ " " ++ monthAbbrev c.2.1 ++
    " " ++ pad2 c.2.2 ++ " " ++ pad2 (s / 3600) ++ ":" ++ pad2 (s / 60 % 60) ++
    ":" ++ pad2 (s % 60) ++ " " ++ toString c.1

/-- Modelled from the spec: the `FullDate::Type` format-tag enumeration is
declared in the header `pistache/http_defs.h`, which is not part of the
shown sources.  Its four enumerators, in the spec's order `RFC1123`,
`RFC1123GMT`, `RFC850`, `AscTime`, take the default underlying values
0, 1, 2, 3; a C++ `enum class` variable can hold any other underlying value,
so the tag is modelled as the underlying integer. -/
def typeRFC1123 : Int := 0

/-- Underlying value of `FullDate::Type::RFC1123GMT`. -/
def typeRFC1123GMT : Int := 1

/-- Underlying value of `FullDate::Type::RFC850`. -/
def typeRFC850 : Int := 2

/-- Underlying value of `FullDate::Type::AscTime`. -/
def typeAscTime : Int := 3

/-- `FullDate::write(os, type)`: switch on the tag; the `default` branch
evaluates `std::runtime_error("Invalid use of FullDate::write")` but does not
`throw` it, so it writes nothing and raises nothing. -/
def FullDate.write (d : FullDate) (tag : Int) (env : TzEnv) :
    String × Option Exn :=
  let _ := env
  if tag = typeRFC1123 then (formatRFC1123 d.date_, none)
  else if tag = typeRFC1123GMT then (formatRFC1123GMT d.date_, none)
  else if tag = typeRFC850 then (formatRFC850 d.date_, none)
  else if tag = typeAscTime then (formatAscTime d.date_, none)
  else ("", none)

/-! ## CacheDirective -/

/-- Modelled from the spec: the `CacheDirective::Directive` enumeration is
declared in the header, which is not part of the shown sources.  The four
duration-bearing kinds `MaxAge`, `SMaxAge`, `MaxStale`, `MinFresh` are
named by the source switch statements; the flag-only kinds listed in the
spec (`NoCache`, `NoStore`, `Private`, `Public`, "etc.") are represented by
those four names. -/
inductive Directive where
  | NoCache
  | NoStore
  | Public
  | Private
  | MaxAge
  | SMaxAge
  | MaxStale
  | MinFresh
deriving DecidableEq, Repr

/-- The four kinds whose switch cases in `delta()` / `init()` carry a
duration. -/
def Directive.bearsDuration : Directive → Bool
  | .MaxAge | .SMaxAge | .MaxStale | .MinFresh => true
  | _ => false

/-- `CacheDirective`: the active tag and the storage of the anonymous union
of `uint64_t` payload members (one cell: the members alias). -/
structure CacheDirective where
  directive_ : Directive
  data : Nat
deriving DecidableEq, Repr

/-- Conversion of an `int64_t` seconds count to a `uint64_t` union member
(two's complement). -/
def toUInt64 (x : Int) : Nat := (x % (2 ^ 64 : Int)).toNat

/-- `CacheDirective::init`: record the directive, and for the four
duration-bearing kinds store `delta.count()` into the matching union member;
the `default` branch leaves the payload untouched. -/
def CacheDirective.init (cd : CacheDirective) (directive : Directive)
    (delta : Int) : CacheDirective :=
  let cd := { cd with directive_ := directive }
  match directive with
  | .MaxAge => { cd with data := toUInt64 delta }
  | .SMaxAge => { cd with data := toUInt64 delta }
  | .MaxStale => { cd with data := toUInt64 delta }
  | .MinFresh => { cd with data := toUInt64 delta }
  | _ => cd

/-- `CacheDirective::CacheDirective(Directive)`: value-initialized members
(`directive_()` is the zero enumerator, `data()` is zero), then
`init(directive, std::chrono::seconds(0))`. -/
def CacheDirective.ofDirective (directive : Directive) : CacheDirective :=
  CacheDirective.init ⟨.NoCache, 0⟩ directive 0

/-- `CacheDirective::CacheDirective(Directive, std::chrono::seconds)`:
value-initialized members, then `init(directive, delta)`. -/
def CacheDirective.ofDirectiveDelta (directive : Directive) (delta : Int) :
    CacheDirective :=
  CacheDirective.init ⟨.NoCache, 0⟩ directive delta

/-- `CacheDirective::delta()`: return the matching union member as
`std::chrono::seconds` for the four duration-bearing kinds, otherwise throw
`std::domain_error("Invalid operation on cache directive")`. -/
def CacheDirective.delta (cd : CacheDirective) : Except Exn Int :=
  match cd.directive_ with
  | .MaxAge => .ok (toInt64 cd.data)
  | .SMaxAge => .ok (toInt64 cd.data)
  | .MaxStale => .ok (toInt64 cd.data)
  | .MinFresh => .ok (toInt64 cd.data)
  | _ => .error (.domainError "Invalid operation on cache directive")

/-! ## Enumeration display tables -/

/-- The `Version` enumeration (`pistache/http_defs.h`). -/
inductive Version where
  | Http10
  | Http11
deriving DecidableEq, Repr

/-- `versionString`: exhaustive switch, no default. -/
def versionString : Version → String
  | .Http10 => "HTTP/1.0"
  | .Http11 => "HTTP/1.1"

/-- Modelled from the spec: the `Method` enumeration and the `HTTP_METHODS`
token table are declared in the header, which is not part of the shown
sources; the spec gives the closed set "e.g. GET/POST/PUT/…".  The standard
request methods are used. -/
inductive Method where
  | Options
  | Get
  | Post
  | Head
  | Put
  | Patch
  | Delete
  | Trace
  | Connect
deriving DecidableEq, Repr

/-- `methodString`: exhaustive switch generated from `HTTP_METHODS`, no
default (falls into `unreachable()` only past the switch). -/
def methodString : Method → String
  | .Options => "OPTIONS"
  | .Get => "GET"
  | .Post => "POST"
  | .Head => "HEAD"
  | .Put => "PUT"
  | .Patch => "PATCH"
  | .Delete => "DELETE"
  | .Trace => "TRACE"
  | .Connect => "CONNECT"

/-- Modelled from the spec: the `Code` enumeration and the `STATUS_CODES`
table are declared in the header, which is not part of the shown sources.
`Code` is an enumeration over status-code integers, modelled as `Int`; the
table maps each defined enumerator to its reason phrase. -/
def codeTable : List (Int × String) :=
  [(100, "Continue"), (101, "Switching Protocols"), (102, "Processing"),
   (200, "OK"), (201, "Created"), (202, "Accepted"),
   (203, "Non-Authoritative Information"), (204, "No Content"),
   (205, "Reset Content"), (206, "Partial Content"), (207, "Multi-Status"),
   (208, "Already Reported"), (226, "IM Used"),
   (300, "Multiple Choices"), (301, "Moved Permanently"), (302, "Found"),
   (303, "See Other"), (304, "Not Modified"), (305, "Use Proxy"),
   (307, "Temporary Redirect"), (308, "Permanent Redirect"),
   (400, "Bad Request"), (401, "Unauthorized"), (402, "Payment Required"),
   (403, "Forbidden"), (404, "Not Found"), (405, "Method Not Allowed"),
   (406, "Not Acceptable"), (407, "Proxy Authentication Required"),
   (408, "Request Timeout"), (409, "Conflict"), (410, "Gone"),
   (411, "Length Required"), (412, "Precondition Failed"),
   (413, "Payload Too Large"), (414, "URI Too Long"),
   (415, "Unsupported Media Type"), (416, "Range Not Satisfiable"),
   (417, "Expectation Failed"), (418, "I am a teapot"),
   (421, "Misdirected Request"), (422, "Unprocessable Entity"),
   (423, "Locked"), (424, "Failed Dependency"), (426, "Upgrade Required"),
   (428, "Precondition Required"), (429, "Too Many Requests"),
   (431, "Request Header Fields Too Large"),
   (451, "Unavailable For Legal Reasons"),
   (500, "Internal Server Error"), (501, "Not Implemented"),
   (502, "Bad Gateway"), (503, "Service Unavailable"),
   (504, "Gateway Timeout"), (505, "HTTP Version Not Supported"),
   (506, "Variant Also Negotiates"), (507, "Insufficient Storage"),
   (508, "Loop Detected"), (510, "Not Extended"),
   (511, "Network Authentication Required")]

/-- `codeString`: switch over the `STATUS_CODES` cases; control reaches
`return ""` for every code without a case. -/
def codeString (code : Int) : String := (codeTable.lookup code).getD ""

/-! ## Helper lemmas -/

/-- A keyword table whose names are non-empty and do not start with a digit
matches no input made of digits only. -/
theorem readKeyword_eq_none_of_digits (table : List (String × Nat))
    (htab : ∀ p ∈ table, p.1.data ≠ [] ∧ (p.1.data.headD 'A').isDigit = false)
    (cs : List Char) (hcs : ∀ c ∈ cs, c.isDigit = true) :
    readKeyword table cs = none := by
  induction table with
  | nil => rfl
  | cons p rest ih =>
      obtain ⟨hne, hhead⟩ := htab p (List.mem_cons_self p rest)
      have hpre : p.1.data.isPrefixOf cs = false := by
        cases hd : p.1.data with
        | nil => exact absurd hd hne
        | cons a l =>
            cases cs with
            | nil => rfl
            | cons c cs2 =>
                have hac : a ≠ c := by
                  intro heq
                  rw [hd] at hhead
                  simp only [List.headD_cons] at hhead
                  rw [heq] at hhead
                  exact absurd (hcs c (List.mem_cons_self c cs2))
                    (by simp [hhead])
                simp [List.isPrefixOf, hac]
      obtain ⟨name, v⟩ := p
      simp only [readKeyword, hpre, Bool.false_eq_true, if_false]
      exact ih fun q hq => htab q (List.mem_cons_of_mem _ hq)

/-- The weekday table fails on digit-only input; all three textual
recognizers begin with it. -/
theorem weekdayTable_digits (cs : List Char)
    (hcs : ∀ c ∈ cs, c.isDigit = true) :
    readKeyword weekdayTable cs = none :=
  readKeyword_eq_none_of_digits weekdayTable (by decide) cs hcs

/-- On an input made of decimal digits only, the three textual recognizers
all fail (each begins with a weekday-name field). -/
theorem textual_recognizers_digits (s : String)
    (h : ∀ c ∈ s.data, c.isDigit = true) :
    parse_RFC_1123 s = none ∧ parse_RFC_850 s = none ∧
      parse_asctime s = none := by
  have hkw := weekdayTable_digits s.data h
  refine ⟨?_, ?_, ?_⟩
  · unfold parse_RFC_1123 parse_RFC_1123_strict parse_RFC_1123_dash
    rw [hkw]
  · unfold parse_RFC_850
    rw [hkw]
  · unfold parse_asctime
    rw [hkw]

/-- takeWhile of a predicate satisfied everywhere is the whole list. -/
theorem takeWhile_of_all {p : Char → Bool} (l : List Char)
    (h : ∀ c ∈ l, p c = true) : l.takeWhile p = l := by
  induction l with
  | nil => rfl
  | cons a l ih =>
      rw [List.takeWhile_cons_of_pos (h a (List.mem_cons_self a l))]
      rw [ih fun c hc => h c (List.mem_cons_of_mem a hc)]

/-- On a non-empty digit-only string, `parse_epoch` succeeds with the
(two's-complement reinterpreted) digit value when it fits in 64 bits, and
fails when `std::stoull` overflows. -/
theorem parse_epoch_digits (s : String)
    (h : ∀ c ∈ s.data, c.isDigit = true) (hne : s.data ≠ []) :
    parse_epoch s =
      if digitsVal s.data < 2 ^ 64 then .success (toInt64 (digitsVal s.data))
      else .failure := by
  have hall : s.data.all Char.isDigit = true := List.all_eq_true.mpr h
  have htw : s.data.takeWhile Char.isDigit = s.data := takeWhile_of_all s.data h
  have hie : s.data.isEmpty = false := by
    simpa [List.isEmpty_iff] using hne
  unfold parse_epoch stoull
  rw [hall, htw]
  simp only [hie, Bool.false_eq_true, if_false, if_true]
  norm_num
  by_cases hlt : digitsVal s.data < 18446744073709551616 <;> simp [hlt]

/-- `uint64_t` storage round-trips through the `int64_t` seconds
representation for every value in the `int64_t` range. -/
theorem toInt64_toUInt64 (x : Int) (h1 : -(2 ^ 63) ≤ x) (h2 : x < 2 ^ 63) :
    toInt64 (toUInt64 x) = x := by
  unfold toInt64 toUInt64
  have h3 : (0 : Int) ≤ x % 2 ^ 64 := Int.emod_nonneg x (by norm_num)
  have h4 : ((x % (2 ^ 64 : Int)).toNat : Int) = x % 2 ^ 64 :=
    Int.toNat_of_nonneg h3
  split <;> omega

/-- A lookup over an association list with no matching key is `none`. -/
theorem lookup_eq_none_of_not_mem (l : List (Int × String)) (c : Int)
    (h : ∀ p ∈ l, p.1 ≠ c) : l.lookup c = none := by
  induction l with
  | nil => rfl
  | cons p rest ih =>
      have hp : (c == p.1) = false := by
        have := h p (List.mem_cons_self p rest)
        simp [beq_eq_false_iff_ne]
        omega
      simp only [List.lookup, hp]
      exact ih fun q hq => h q (List.mem_cons_of_mem p hq)

/-! ## Claim theorems -/

/-- C1: `FullDate::fromString` runs the four recognizers in the fixed order
RFC 1123 (including its dash-separated fallback), RFC 850, asctime, epoch,
and returns a `FullDate` holding the time point produced by the first
recognizer that succeeds; when all four recognizers fail, it fails with the
`InvalidDateFormat` error (`std::runtime_error("Invalid Date format")`)
rather than returning any sentinel or default value. -/
theorem fromString_cascade (s : String) :
    (∀ tp, parse_RFC_1123 s = some tp →
      FullDate.fromString s = (.ok ⟨tp⟩, [])) ∧
    (parse_RFC_1123 s = none → ∀ tp, parse_RFC_850 s = some tp →
      FullDate.fromString s = (.ok ⟨tp⟩, [])) ∧
    (parse_RFC_1123 s = none → parse_RFC_850 s = none →
      ∀ tp, parse_asctime s = some tp →
      FullDate.fromString s = (.ok ⟨tp⟩, [])) ∧
    (parse_RFC_1123 s = none → parse_RFC_850 s = none →
      parse_asctime s = none → ∀ tp, parse_epoch s = .success tp →
      FullDate.fromString s = (.ok ⟨tp⟩, [])) ∧
    (parse_RFC_1123 s = none → parse_RFC_850 s = none →
      parse_asctime s = none → parse_epoch s = .failure →
      FullDate.fromString s =
        (.error (.runtimeError "Invalid Date format"),
         ["Failed parsing date: " ++ s])) := by
  refine ⟨fun tp h1 => ?_, fun h1 tp h2 => ?_, fun h1 h2 tp h3 => ?_,
    fun h1 h2 h3 tp h4 => ?_, fun h1 h2 h3 h4 => ?_⟩
  · unfold FullDate.fromString
    rw [h1]
  · unfold FullDate.fromString
    rw [h1, h2]
  · unfold FullDate.fromString
    rw [h1, h2, h3]
  · unfold FullDate.fromString
    rw [h1, h2, h3, h4]
  · unfold FullDate.fromString
    rw [h1, h2, h3, h4]

/-- C1 witness: the RFC-1123 string `Mon, 02 Jan 2006 15:04:05 GMT` is
recognised by the first recognizer and yields epoch second 1136214245. -/
theorem fromString_cascade_witness :
    FullDate.fromString "Mon, 02 Jan 2006 15:04:05 GMT" =
      (.ok ⟨1136214245⟩, []) :=
  (fromString_cascade "Mon, 02 Jan 2006 15:04:05 GMT").1 1136214245 rfl

/-- C2 counterexample: parsing `Mon, 02-Jan-06 15:04:05 GMT` succeeds via
the dash-separated fallback, but its format string reads the year with `%Y`,
so `06` is the year 6 AD: the result differs from that of
`Mon, 02 Jan 2006 15:04:05 GMT`. -/
theorem dash_variant_counterexample :
    FullDate.fromString "Mon, 02-Jan-06 15:04:05 GMT" ≠
      FullDate.fromString "Mon, 02 Jan 2006 15:04:05 GMT" ∧
    FullDate.fromString "Mon, 02-Jan-06 15:04:05 GMT" =
      (.ok ⟨-61977689755⟩, []) ∧
    FullDate.fromString "Mon, 02 Jan 2006 15:04:05 GMT" =
      (.ok ⟨1136214245⟩, []) := by
  have h1 : FullDate.fromString "Mon, 02-Jan-06 15:04:05 GMT" =
      ((.ok ⟨-61977689755⟩ : Except Exn FullDate), ([] : List String)) := rfl
  have h2 : FullDate.fromString "Mon, 02 Jan 2006 15:04:05 GMT" =
      ((.ok ⟨1136214245⟩ : Except Exn FullDate), ([] : List String)) := rfl
  refine ⟨?_, h1, h2⟩
  rw [h1, h2]
  intro hcontra
  simp [Prod.ext_iff, FullDate.mk.injEq] at hcontra

/-- C2 amended: parsing the dash-separated variant succeeds, but `%Y` makes
`06` the year 6 AD (the time point is that of 0006-01-02 15:04:05 UTC, not
of 2006); a four-digit dash-separated year, as in the producer quoted by the
source comment, does yield the same instant as the RFC-1123 form. -/
theorem dash_variant_amended :
    FullDate.fromString "Mon, 02-Jan-06 15:04:05 GMT" =
      (.ok ⟨-61977689755⟩, []) ∧
    (-61977689755 : Int) =
      daysFromCivil 6 1 2 * 86400 + (15 * 3600 + 4 * 60 + 5) ∧
    FullDate.fromString "Mon, 02-Jan-2006 15:04:05 GMT" =
      FullDate.fromString "Mon, 02 Jan 2006 15:04:05 GMT" :=
  ⟨rfl, rfl, rfl⟩

/-- C7: the epoch recognizer succeeds only on strings made of decimal
digits, but on the empty string the digit check passes vacuously and
`std::stoull("")` throws `std::invalid_argument`, which the recognizer does
not catch (only `std::out_of_range` is handled): parsing the empty string
escapes `fromString` as an uncaught exception instead of ending in
`InvalidDateFormat`. -/
theorem fromString_empty_uncaught :
    parse_epoch "" = .uncaught (.invalidArgument "stoull") ∧
    FullDate.fromString "" = (.error (.invalidArgument "stoull"), []) ∧
    FullDate.fromString "" ≠
      (.error (.runtimeError "Invalid Date format"),
       ["Failed parsing date: "]) ∧
    (∀ s tp, parse_epoch s = .success tp → ∀ c ∈ s.data, c.isDigit = true) := by
  refine ⟨rfl, rfl, ?_, ?_⟩
  · have h : FullDate.fromString "" =
        ((.error (.invalidArgument "stoull") : Except Exn FullDate),
         ([] : List String)) := rfl
    rw [h]
    intro hcontra
    simp [Prod.ext_iff] at hcontra
  · intro s tp hp c hc
    by_cases hall : s.data.all Char.isDigit
    · exact List.all_eq_true.mp hall c hc
    · exfalso
      unfold parse_epoch at hp
      simp [hall] at hp

/-- C8 counterexample: the failure surfaced by `fromString` does not carry
the original input text.  Two different unparsable inputs produce the same
exception value, the fixed `std::runtime_error("Invalid Date format")`,
whose message does not contain the input; the input text only reaches the
debug log line. -/
theorem invalid_format_error_constant :
    (FullDate.fromString "not a date").1 =
      (FullDate.fromString "garbage input ###").1 ∧
    (FullDate.fromString "not a date").1 =
      .error (.runtimeError "Invalid Date format") ∧
    ¬ List.IsInfix "not a date".data "Invalid Date format".data := by
  exact ⟨rfl, rfl, by decide⟩

/-- C8 amended: when all four recognizers fail, the failure surfaced to the
caller is the fixed `std::runtime_error("Invalid Date format")`; the
original input text is carried by the debug diagnostic emitted just before
throwing, not by the failure itself. -/
theorem invalid_format_amended (s : String)
    (h1 : parse_RFC_1123 s = none) (h2 : parse_RFC_850 s = none)
    (h3 : parse_asctime s = none) (h4 : parse_epoch s = .failure) :
    FullDate.fromString s =
      (.error (.runtimeError "Invalid Date format"),
       ["Failed parsing date: " ++ s]) := by
  unfold FullDate.fromString
  rw [h1, h2, h3, h4]

/-- C8 amended witness: concrete unparsable input. -/
theorem invalid_format_amended_witness :
    FullDate.fromString "not a date" =
      (.error (.runtimeError "Invalid Date format"),
       ["Failed parsing date: not a date"]) :=
  invalid_format_amended "not a date" rfl rfl rfl rfl

/-- C3 counterexample: `parse_epoch` stores `std::stoull`'s `uint64_t`
result into `std::chrono::seconds`, whose representation is `int64_t`; for
`n = 2 ^ 63` (representable in unsigned 64 bits) the value wraps to a
negative seconds count instead of epoch + `n` seconds. -/
theorem epoch_wrap_counterexample :
    FullDate.fromString "9223372036854775808" =
      (.ok ⟨-9223372036854775808⟩, []) ∧
    (-9223372036854775808 : Int) ≠ (9223372036854775808 : Int) :=
  ⟨rfl, by norm_num⟩

/-- C3 amended: for every digit string of value `n`, parsing yields epoch +
`n` seconds when `n < 2 ^ 63`; for `2 ^ 63 ≤ n < 2 ^ 64` it succeeds but the
seconds count wraps to `n - 2 ^ 64` (two's-complement conversion of the
`uint64_t` into `std::chrono::seconds`); for `n ≥ 2 ^ 64` the overflow of
`std::stoull` is caught inside the recognizer and parsing fails with
`InvalidDateFormat`, never propagating past the parser. -/
theorem epoch_parse_amended (s : String) (n : Nat)
    (hd : ∀ c ∈ s.data, c.isDigit = true) (hne : s.data ≠ [])
    (hval : digitsVal s.data = n) :
    (n < 2 ^ 63 → FullDate.fromString s = (.ok ⟨(n : Int)⟩, [])) ∧
    (2 ^ 63 ≤ n → n < 2 ^ 64 →
      FullDate.fromString s = (.ok ⟨(n : Int) - 2 ^ 64⟩, [])) ∧
    (2 ^ 64 ≤ n →
      FullDate.fromString s =
        (.error (.runtimeError "Invalid Date format"),
         ["Failed parsing date: " ++ s])) := by
  obtain ⟨h1, h2, h3⟩ := textual_recognizers_digits s hd
  have hep := parse_epoch_digits s hd hne
  subst hval
  refine ⟨fun hlt => ?_, fun hge hlt => ?_, fun hge => ?_⟩
  · have h4 : parse_epoch s = .success (toInt64 (digitsVal s.data)) := by
      rw [hep, if_pos (by omega)]
    have h5 : toInt64 (digitsVal s.data) = (digitsVal s.data : Int) := by
      unfold toInt64
      rw [if_pos hlt]
    unfold FullDate.fromString
    rw [h1, h2, h3, h4, h5]
  · have h4 : parse_epoch s = .success (toInt64 (digitsVal s.data)) := by
      rw [hep, if_pos hlt]
    have h5 : toInt64 (digitsVal s.data) = (digitsVal s.data : Int) - 2 ^ 64 := by
      unfold toInt64
      rw [if_neg (by omega)]
    unfold FullDate.fromString
    rw [h1, h2, h3, h4, h5]
  · have h4 : parse_epoch s = .failure := by
      rw [hep, if_neg (by omega)]
    unfold FullDate.fromString
    rw [h1, h2, h3, h4]

/-- C3 amended witness: a concrete in-range epoch string. -/
theorem epoch_parse_amended_witness :
    FullDate.fromString "1136214245" = (.ok ⟨1136214245⟩, []) :=
  (epoch_parse_amended "1136214245" 1136214245 (by decide) (by decide)
    rfl).1 (by norm_num)

/-- C4: formatting with the `RFC1123GMT` tag converts the stored time point
with `gmtime_r` (a pure UTC conversion) and a format string ending in the
literal token `GMT`: the output always ends in `GMT`, throws nothing, and is
a function of the stored time point alone — two runs under different host
local-timezone configurations produce identical output. -/
theorem write_gmt_deterministic (t : TimePoint) (e1 e2 : TzEnv) :
    FullDate.write ⟨t⟩ typeRFC1123GMT e1 =
      FullDate.write ⟨t⟩ typeRFC1123GMT e2 ∧
    (∃ p, (FullDate.write ⟨t⟩ typeRFC1123GMT e1).1 = p ++ "GMT") ∧
    (FullDate.write ⟨t⟩ typeRFC1123GMT e1).2 = none := by
  refine ⟨rfl, ⟨rfc1123Body t, ?_⟩, ?_⟩ <;>
    norm_num [FullDate.write, typeRFC1123GMT, typeRFC1123, formatRFC1123GMT]

/-- C4 witness: the epoch instant formatted under two different host
timezone configurations. -/
theorem write_gmt_deterministic_witness :
    FullDate.write ⟨0⟩ typeRFC1123GMT ⟨"UTC"⟩ =
      FullDate.write ⟨0⟩ typeRFC1123GMT ⟨"America/New_York"⟩ ∧
    (FullDate.write ⟨0⟩ typeRFC1123GMT ⟨"UTC"⟩).2 = none :=
  ⟨(write_gmt_deterministic 0 ⟨"UTC"⟩ ⟨"America/New_York"⟩).1,
   (write_gmt_deterministic 0 ⟨"UTC"⟩ ⟨"America/New_York"⟩).2.2⟩

/-- C5: `delta()` returns the stored duration exactly when the directive
kind is one of `MaxAge`, `SMaxAge`, `MaxStale`, `MinFresh` (the duration
given at construction, or zero seconds for the kind-only constructor), and
throws `std::domain_error("Invalid operation on cache directive")`
(`InvalidOperation`) for every other kind. -/
theorem cacheDirective_delta_iff (k : Directive) (dur : Int)
    (hlo : -(2 ^ 63) ≤ dur) (hhi : dur < 2 ^ 63) :
    (k.bearsDuration = true →
      (CacheDirective.ofDirectiveDelta k dur).delta = .ok dur ∧
      (CacheDirective.ofDirective k).delta = .ok 0) ∧
    (k.bearsDuration = false →
      (CacheDirective.ofDirectiveDelta k dur).delta =
        .error (.domainError "Invalid operation on cache directive") ∧
      (CacheDirective.ofDirective k).delta =
        .error (.domainError "Invalid operation on cache directive")) := by
  have hz : toInt64 (toUInt64 0) = 0 := by norm_num [toInt64, toUInt64]
  have hd := toInt64_toUInt64 dur hlo hhi
  cases k <;>
    simp [CacheDirective.ofDirectiveDelta, CacheDirective.ofDirective,
      CacheDirective.init, CacheDirective.delta, Directive.bearsDuration,
      hd, hz]

/-- C5 witness: `CacheDirective(MaxAge, 3600s).delta() == 3600s` and
`CacheDirective(NoCache).delta()` throws. -/
theorem cacheDirective_delta_iff_witness :
    (CacheDirective.ofDirectiveDelta .MaxAge 3600).delta = .ok 3600 ∧
    (CacheDirective.ofDirective .NoCache).delta =
      .error (.domainError "Invalid operation on cache directive") :=
  ⟨((cacheDirective_delta_iff .MaxAge 3600 (by norm_num) (by norm_num)).1
      rfl).1,
   ((cacheDirective_delta_iff .NoCache 3600 (by norm_num) (by norm_num)).2
      rfl).2⟩

/-- C6: for a tag outside the four `Type` enumerators, `FullDate::write`
reaches the `default` branch, which only constructs
`std::runtime_error("Invalid use of FullDate::write")` without a `throw`
statement: the call writes nothing and raises nothing — it silently produces
no output instead of failing fast. -/
theorem write_invalid_tag_silent :
    FullDate.write ⟨1136214245⟩ 4 ⟨"America/New_York"⟩ = ("", none) ∧
    (4 : Int) ≠ typeRFC1123 ∧ (4 : Int) ≠ typeRFC1123GMT ∧
    (4 : Int) ≠ typeRFC850 ∧ (4 : Int) ≠ typeAscTime :=
  ⟨rfl, by norm_num [typeRFC1123], by norm_num [typeRFC1123GMT],
   by norm_num [typeRFC850], by norm_num [typeAscTime]⟩

/-- C9: the display tables are total: `versionString` maps `Http11` to
`HTTP/1.1` and `Http10` to `HTTP/1.0`, `methodString` maps every `Method`
enumerator to a non-empty string, and `codeString` maps every code outside
the defined table (such as the unassigned extension code 599) to the empty
string rather than failing. -/
theorem display_tables (c : Int) (hc : ∀ p ∈ codeTable, p.1 ≠ c) :
    versionString .Http11 = "HTTP/1.1" ∧ versionString .Http10 = "HTTP/1.0" ∧
    (∀ m, methodString m ≠ "") ∧ codeString c = "" ∧ codeString 599 = "" := by
  refine ⟨rfl, rfl, ?_, ?_, rfl⟩
  · intro m
    cases m <;> decide
  · unfold codeString
    rw [lookup_eq_none_of_not_mem codeTable c hc]
    rfl

/-- C9 witness: code 599 has no entry in the table. -/
theorem display_tables_witness :
    versionString .Http11 = "HTTP/1.1" ∧ codeString 599 = "" :=
  ⟨(display_tables 599 (by decide)).1,
   (display_tables 599 (by decide)).2.2.2.1⟩

/-- C10: both constructors pass through `init`, which always records the
directive kind it was given; for flag-only kinds the `default` branch leaves
the payload storage untouched. -/
theorem cacheDirective_init_records (k : Directive) (dur : Int)
    (cd : CacheDirective) :
    (cd.init k dur).directive_ = k ∧
    (CacheDirective.ofDirective k).directive_ = k ∧
    (CacheDirective.ofDirectiveDelta k dur).directive_ = k ∧
    (k.bearsDuration = false → (cd.init k dur).data = cd.data) := by
  cases k <;>
    simp [CacheDirective.init, CacheDirective.ofDirective,
      CacheDirective.ofDirectiveDelta, Directive.bearsDuration]

/-- C10 witness: a flag-only kind records its tag and leaves the payload
cell unchanged. -/
theorem cacheDirective_init_records_witness :
    (CacheDirective.init ⟨.MaxAge, 7⟩ .NoCache 5).directive_ = .NoCache ∧
    (CacheDirective.init ⟨.MaxAge, 7⟩ .NoCache 5).data = 7 :=
  ⟨(cacheDirective_init_records .NoCache 5 ⟨.MaxAge, 7⟩).1,
   (cacheDirective_init_records .NoCache 5 ⟨.MaxAge, 7⟩).2.2.2 rfl⟩

end Pistache.Http
